import Mathlib

/-!
Verification of the CoreBridge health-monitor plugin core against its
natural-language specification.  The definitions below are a shallow
embedding of the JavaScript sources:

* `RabbitMQService.js`  — messaging gateway (publish, request/reply,
  reconnection state machine);
* `SelfMonitoringService.js` — self-monitoring engine (metrics history,
  threshold evaluation, alert truncation);
* `HealthMonitorPlugin` (services/HealthMonitorPlugin.js) — orchestrator
  (sweeps, probes, alert classification, interval-to-cron conversion).

Machine numbers that are JavaScript floats (MB values, percentages,
millisecond delays) are modelled as rationals; only their ordering is ever
used by the code.  Timestamps are modelled as integers (milliseconds).
-/

namespace HealthMonitor

/-! ## Messaging gateway (`RabbitMQService.js`) -/

/-- A delivery arriving on the private reply queue of
`requestDatabaseHealthCheck`: its `properties.correlationId` and its body. -/
structure ReplyMessage where
  correlationId : String
  content : String
deriving DecidableEq, Repr

/-- What one invocation of the reply-queue consume callback does: whether it
resolves the pending promise (and with what body), and whether it acks the
delivery to the broker. -/
structure ReplyOutcome where
  resolvesWith : Option String
  acked : Bool
deriving DecidableEq, Repr

/-- The consume callback installed on the private reply queue by
`requestDatabaseHealthCheck` (RabbitMQService.js lines 278–285):

```js
this.channel.consume(replyQueue, (msg) => {
  if (msg && msg.properties.correlationId === requestId) {
    clearTimeout(timeout);
    const response = JSON.parse(msg.content.toString());
    this.channel.ack(msg);
    resolve(response);
  }
}, { noAck: false });
```

A `null` delivery or a delivery whose correlation id differs from the
request id falls through the `if` and nothing at all happens: no resolve
and, in particular, no `ack`. -/
def handleReplyMessage (requestId : String) (msg : Option ReplyMessage) : ReplyOutcome :=
  match msg with
  | none => ⟨none, false⟩
  | some m =>
    if m.correlationId = requestId then ⟨some m.content, true⟩
    else ⟨none, false⟩

/-- The promise produced by `requestDatabaseHealthCheck`, run over a stream of
deliveries on the reply queue: it resolves with the body of the first
delivery whose correlation id matches, and stays pending otherwise. -/
def awaitReply (requestId : String) (msgs : List ReplyMessage) : Option String :=
  match msgs with
  | [] => none
  | m :: rest =>
    match (handleReplyMessage requestId (some m)).resolvesWith with
    | some c => some c
    | none => awaitReply requestId rest

/-- Connection-related fields of `RabbitMQService` (constructor, lines 7–16). -/
structure GatewayState where
  isConnected : Bool
  reconnectAttempts : Nat
deriving DecidableEq, Repr

/-- `this.maxReconnectAttempts = 10` (RabbitMQService.js line 12). -/
def maxReconnectAttempts : Nat := 10

/-- `this.reconnectDelay = 5000` (RabbitMQService.js line 13). -/
def reconnectDelay : Nat := 5000

/-- Constructor state: not connected, zero reconnection attempts. -/
def initialGatewayState : GatewayState := ⟨false, 0⟩

/-- `scheduleReconnect` (RabbitMQService.js lines 389–410): if the attempt
counter has reached the maximum it gives up (no timer scheduled, state
unchanged); otherwise it increments the counter and schedules a retry after
`reconnectDelay * reconnectAttempts` milliseconds.  The second component is
the delay of the scheduled attempt, `none` when nothing was scheduled. -/
def scheduleReconnect (s : GatewayState) : GatewayState × Option Nat :=
  if s.reconnectAttempts ≥ maxReconnectAttempts then (s, none)
  else
    let attempts := s.reconnectAttempts + 1
    ({ s with reconnectAttempts := attempts }, some (reconnectDelay * attempts))

/-- Successful `connect()` (RabbitMQService.js lines 50–51):
`this.isConnected = true; this.reconnectAttempts = 0;`. -/
def connectSuccess (s : GatewayState) : GatewayState :=
  { s with isConnected := true, reconnectAttempts := 0 }

/-- `handleConnectionError` / `handleConnectionClose` (lines 371–384):
`this.isConnected = false; this.scheduleReconnect();`. -/
def connectionLost (s : GatewayState) : GatewayState × Option Nat :=
  scheduleReconnect { s with isConnected := false }

/-- Events driving the gateway's reconnection state machine. -/
inductive GatewayEvent
  | connOk          -- `connect()` succeeded
  | connLost        -- connection `error` / `close` event fired
  | reconnectFailed -- a scheduled reconnection attempt threw (line 405–408)
deriving DecidableEq, Repr

/-- One transition of the reconnection state machine; the `Option Nat` is the
delay of a newly scheduled reconnection attempt, if any. -/
def gatewayStep (s : GatewayState) (e : GatewayEvent) : GatewayState × Option Nat :=
  match e with
  | .connOk => (connectSuccess s, none)
  | .connLost => connectionLost s
  | .reconnectFailed => scheduleReconnect s

/-- Run the gateway state machine over a sequence of events. -/
def gatewayRun (s : GatewayState) (es : List GatewayEvent) : GatewayState :=
  es.foldl (fun st e => (gatewayStep st e).1) s

/-- A message handed to `channel.publish`. -/
structure PublishedMessage where
  exchange : String
  routingKey : String
  payload : String
deriving DecidableEq, Repr

/-- Result of one publish/request call: the gateway state afterwards, the
messages actually handed to the broker channel, and the error thrown (if
any). -/
structure CallResult where
  state : GatewayState
  published : List PublishedMessage
  error : Option String
deriving DecidableEq, Repr

/-- `publishHealthMetrics` (RabbitMQService.js lines 142–179): the guard
`if (!this.isConnected) throw new Error('RabbitMQ not connected')` runs
before anything is built or published, so a disconnected call throws with
no message handed to the channel and no field of the service mutated. -/
def publishHealthMetrics (s : GatewayState) (metrics : String) : CallResult :=
  if s.isConnected then
    ⟨s, [⟨"health.exchange", "metrics.health", metrics⟩], none⟩
  else
    ⟨s, [], some "RabbitMQ not connected"⟩

/-- `requestDatabaseHealthCheck` (RabbitMQService.js lines 230–292) up to the
point where the request message is published: the same
`if (!this.isConnected) throw new Error('RabbitMQ not connected')` guard
runs first, before the reply queue is asserted or anything is sent. -/
def requestDatabaseHealthCheck (s : GatewayState) (query : String) : CallResult :=
  if s.isConnected then
    ⟨s, [⟨"system.exchange", "database.health.request", query⟩], none⟩
  else
    ⟨s, [], some "RabbitMQ not connected"⟩

/-! ## Orchestrator (`HealthMonitorPlugin`) -/

/-- A configured health target (config `healthTargets` entries): the fields
the orchestrator's probing and classification logic reads.  `expectedStatus`
is `none` when the field is absent from the configuration object. -/
structure Target where
  name : String
  type : String
  expectedStatus : Option Nat
  critical : Bool
deriving DecidableEq, Repr

/-- A CheckResult as built by the probes and by `checkSingleTarget`'s catch
block: `{target, status, error?, httpStatus?}` (response time and timestamp
fields are elided — no claim reads them). -/
structure CheckResult where
  target : Target
  status : String
  error : Option String
  httpStatus : Option Nat
deriving DecidableEq, Repr

/-- Outcome of dispatching one probe for a target: either the probe's own
result object, or a thrown/rejected error with its message. -/
inductive ProbeOutcome
  | result (r : CheckResult)
  | thrown (message : String)
deriving DecidableEq, Repr

/-- `checkSingleTarget` (HealthMonitorPlugin lines 356–403): dispatches to a
probe; if the probe throws or rejects, the catch block converts the failure
into `{target, status: 'error', error: error.message}`.  Either way a result
is produced (this function never throws). -/
def checkSingleTarget (probe : Target → ProbeOutcome) (t : Target) : CheckResult :=
  match probe t with
  | .result r => r
  | .thrown msg => ⟨t, "error", some msg, none⟩

/-- `runFullHealthCheck` (HealthMonitorPlugin lines 288–351):
`Promise.allSettled(config.healthTargets.map(target => this.checkSingleTarget(target)))`.
Since `checkSingleTarget` catches every failure, every settled promise is
fulfilled and the sweep yields one CheckResult per target, in order.  (The
`rejected` branch of the `allSettled` mapping, lines 301–308, builds the same
`error`-status shape and is unreachable.) -/
def runFullHealthCheck (targets : List Target) (probe : Target → ProbeOutcome) :
    List CheckResult :=
  targets.map (checkSingleTarget probe)

/-- `Map.set` on `this.healthResults`, keyed by target name. -/
def mapSet (m : String → Option CheckResult) (k : String) (v : CheckResult) :
    String → Option CheckResult :=
  fun k' => if k' = k then some v else m k'

/-- The `this.healthResults` map after a sweep: `checkSingleTarget` stores its
result under `target.name` both on success (line 379) and in its catch block
(line 398). -/
def healthResultsAfterSweep (targets : List Target) (probe : Target → ProbeOutcome)
    (m : String → Option CheckResult) : String → Option CheckResult :=
  targets.foldl (fun m t => mapSet m t.name (checkSingleTarget probe t)) m

/-- The axios `validateStatus` option built by `checkHttpTarget`
(HealthMonitorPlugin lines 413–415):

```js
validateStatus: (status) => {
  return target.expectedStatus ? status === target.expectedStatus : status < 400;
}
```

JavaScript truthiness: an absent `expectedStatus` — and also the degenerate
value `0`, which is falsy — selects the `status < 400` rule. -/
def validateStatus (expectedStatus : Option Nat) (status : Nat) : Bool :=
  match expectedStatus with
  | some e => if e ≠ 0 then status == e else status < 400
  | none => status < 400

/-- What the HTTP request did: the server answered with a status code, or the
request failed without a response (connection refused, timeout, …). -/
inductive HttpOutcome
  | response (status : Nat)
  | networkError (message : String)
deriving DecidableEq, Repr

/-- `checkHttpTarget` (HealthMonitorPlugin lines 408–445): axios resolves the
request exactly when `validateStatus` accepts the status code, giving a
`healthy` result; any rejected request — non-accepted status code or network
failure — lands in the catch block and yields an `unhealthy` result carrying
the error message and the response status when one exists. -/
def checkHttpTarget (t : Target) (outcome : HttpOutcome) : CheckResult :=
  match outcome with
  | .response s =>
    if validateStatus t.expectedStatus s then
      ⟨t, "healthy", none, some s⟩
    else
      ⟨t, "unhealthy", some ("Request failed with status code " ++ toString s), some s⟩
  | .networkError msg => ⟨t, "unhealthy", some msg, none⟩

/-- An alert object as built by `processHealthResults` /
`checkThresholds` (fields the claims read). -/
structure Alert where
  type : String
  severity : String
  target : String
  message : String
  error : Option String
deriving DecidableEq, Repr

/-- The alert `processHealthResults` generates for a non-healthy result on a
critical target (HealthMonitorPlugin lines 558–567). -/
def mkCriticalAlert (r : CheckResult) : Alert :=
  ⟨"service-down", "critical", r.target.name,
    "Critical service " ++ r.target.name ++ " is unhealthy", r.error⟩

/-- The alert `processHealthResults` generates for a non-healthy result on a
non-critical target (HealthMonitorPlugin lines 570–578). -/
def mkWarningAlert (r : CheckResult) : Alert :=
  ⟨"service-degraded", "warning", r.target.name,
    "Service " ++ r.target.name ++ " is experiencing issues", r.error⟩

/-- `processHealthResults` (HealthMonitorPlugin lines 547–579), restricted to
the alerts it generates: one `critical`-severity "service-down" alert per
non-healthy result whose target is critical, then one `warning`-severity
"service-degraded" alert per non-healthy result whose target is not
critical. -/
def processHealthResults (results : List CheckResult) : List Alert :=
  let criticalIssues := results.filter (fun r => r.status != "healthy" && r.target.critical)
  let nonCriticalIssues := results.filter (fun r => r.status != "healthy" && !r.target.critical)
  criticalIssues.map mkCriticalAlert ++ nonCriticalIssues.map mkWarningAlert

/-- `generateAlert` (HealthMonitorPlugin lines 614–635): `this.alerts.push(alert)`
— the orchestrator's alert list is appended to and never truncated anywhere
in the class (only `cleanup()` empties it on shutdown). -/
def generateAlert (alerts : List Alert) (a : Alert) : List Alert :=
  alerts ++ [a]

/-- A run of `generateAlert` calls against the orchestrator's alert list. -/
def generateAlerts (alerts : List Alert) (incoming : List Alert) : List Alert :=
  incoming.foldl generateAlert alerts

/-- `intervalToCron` (HealthMonitorPlugin lines 724–735) produces one of four
cron-expression shapes; the constructors carry the step count.  -/
inductive CronExpr
  | everySecond
  | secondStep (n : Nat)
  | minuteStep (n : Nat)
  | hourStep (n : Nat)
deriving DecidableEq, Repr

/-- The string the code actually returns for each shape. -/
def cronExprString : CronExpr → String
  | .everySecond => "* * * * * *"
  | .secondStep n => "*/" ++ toString n ++ " * * * * *"
  | .minuteStep n => "0 */" ++ toString n ++ " * * * *"
  | .hourStep n => "0 0 */" ++ toString n ++ " * * *"

/-- `intervalToCron` (HealthMonitorPlugin lines 724–735):

```js
const seconds = Math.floor(intervalMs / 1000);
if (seconds <= 0) return '* * * * * *';
if (seconds < 60) return `*/seconds * * * * *`;
const minutes = Math.floor(seconds / 60);
if (minutes < 60) return `0 */minutes * * * *`;
const hours = Math.floor(minutes / 60);
return `0 0 */hours * * *`;
``` -/
def intervalToCron (intervalMs : Nat) : CronExpr :=
  let seconds := intervalMs / 1000
  if seconds ≤ 0 then .everySecond
  else if seconds < 60 then .secondStep seconds
  else
    let minutes := seconds / 60
    if minutes < 60 then .minuteStep minutes
    else .hourStep (minutes / 60)

/-- Standard cron step semantics (as implemented by node-cron): a field
pattern `*/n` matches when the field's current value is divisible by `n`.
`t` is an absolute time in seconds; second-of-minute is `t % 60`,
minute-of-hour `t / 60 % 60`, hour-of-day `t / 3600 % 24`. -/
def cronMatches (e : CronExpr) (t : Nat) : Bool :=
  let sec := t % 60
  let min := t / 60 % 60
  let hour := t / 3600 % 24
  match e with
  | .everySecond => true
  | .secondStep n => sec % n == 0
  | .minuteStep n => sec == 0 && min % n == 0
  | .hourStep n => sec == 0 && min == 0 && hour % n == 0

/-! ## Self-monitoring engine (`SelfMonitoringService.js`) -/

/-- The configured thresholds (`config.selfMonitoring.thresholds`):
`{memoryUsageMB: 500, cpuUsagePercent: 80, eventLoopDelay: 100}`. -/
structure Thresholds where
  memoryUsageMB : ℚ
  cpuUsagePercent : ℚ
  eventLoopDelay : ℚ
deriving DecidableEq, Repr

/-- The values shipped in `config/index.js`. -/
def configThresholds : Thresholds := ⟨500, 80, 100⟩

/-- The live readings `getHealthStatus` could consult: resident memory in MB
(`process.memoryUsage().rss / 1024 / 1024`), the CPU percentage computed by
`getProcessMetrics`, and the sampled event-loop delay in ms. -/
structure SelfSnapshot where
  rssMB : ℚ
  cpuPercent : ℚ
  eventLoopDelayMs : ℚ
deriving DecidableEq, Repr

/-- The report `getHealthStatus` returns (uptime fields elided). -/
structure HealthStatusReport where
  status : String
  issues : List String
  warnings : List String
deriving DecidableEq, Repr

/-- `getHealthStatus` (SelfMonitoringService.js lines 257–289): pushes an
issue when memory exceeds `thresholds.memoryUsageMB` and when the event-loop
delay exceeds `thresholds.eventLoopDelay` — the CPU reading is never
consulted here.  A sub-1-hour uptime only adds a warning.  Status is
`unhealthy` exactly when `issues` is non-empty.  (The numeric text baked into
each issue string is elided.) -/
def getHealthStatus (th : Thresholds) (s : SelfSnapshot) (uptimeHours : Nat) :
    HealthStatusReport :=
  let issues :=
    (if s.rssMB > th.memoryUsageMB then ["High memory usage"] else []) ++
    (if s.eventLoopDelayMs > th.eventLoopDelay then ["High event loop delay"] else [])
  let warnings := if uptimeHours < 1 then ["Service recently started"] else []
  ⟨if issues.length > 0 then "unhealthy" else "healthy", issues, warnings⟩

/-- `cleanOldMetrics` (SelfMonitoringService.js lines 383–397): evicts
metrics entries older than one hour, then truncates the alert list to its
most recent 100 entries when it has grown past 100
(`this.alerts = this.alerts.slice(-100)`).  `now` and the map keys are
millisecond timestamps. -/
def cleanOldMetrics (now : Int) (metrics : List (Int × α)) (alerts : List β) :
    List (Int × α) × List β :=
  let oneHourAgo := now - 60 * 60 * 1000
  ( metrics.filter (fun p => !(p.1 < oneHourAgo)),
    if alerts.length > 100 then alerts.drop (alerts.length - 100) else alerts )

/-- `getMetricsHistory` (SelfMonitoringService.js lines 410–413):
`return limit ? history.slice(-limit) : history` — a truthy (positive) limit
selects the last `limit` snapshots, while `limit = 0` is falsy and returns
the whole retained history. -/
def getMetricsHistory (history : List α) (limit : Nat) : List α :=
  if limit ≠ 0 then history.drop (history.length - limit) else history

/-! ## Theorems -/

/-- C1 counterexample: the claim states that a reply carrying a foreign
correlation id "is ignored and acknowledged to the broker".  At the concrete
input — pending request id `req-1`, delivery with correlation id `req-2` —
the consume callback does not acknowledge the delivery, so the
acknowledgement half of the claim is false. -/
theorem request_reply_foreign_not_acked :
    ("req-2" : String) ≠ "req-1" ∧
    ¬ ((handleReplyMessage "req-1" (some ⟨"req-2", "pong"⟩)).acked = true) := by
  decide

/-- C1 (amended): `requestDatabaseHealthCheck`'s promise resolves only on a
reply whose correlation id equals the request id of that call — if the wait
over a stream of deliveries resolves with a body, some delivery in the
stream carried the matching correlation id and that body; a delivery with
any other correlation id neither resolves the call nor acknowledges the
message (the callback does nothing at all for it). -/
theorem request_reply_correlation (requestId response : String)
    (msgs : List ReplyMessage) :
    (awaitReply requestId msgs = some response →
      ∃ m ∈ msgs, m.correlationId = requestId ∧ m.content = response) ∧
    (∀ m : ReplyMessage, m.correlationId ≠ requestId →
      handleReplyMessage requestId (some m) = ⟨none, false⟩) := by
  constructor
  · induction msgs with
    | nil => intro h; simp [awaitReply] at h
    | cons m rest ih =>
      intro h
      simp only [awaitReply, handleReplyMessage] at h
      by_cases hc : m.correlationId = requestId
      · simp only [hc, if_pos rfl] at h
        exact ⟨m, List.mem_cons_self m rest, hc, by simpa using h⟩
      · rw [if_neg hc] at h
        obtain ⟨m', hm', hprop⟩ := ih h
        exact ⟨m', List.mem_cons_of_mem m hm', hprop⟩
  · intro m hm
    simp [handleReplyMessage, hm]

/-- Witness for C1 at a concrete input: a single matching reply resolves the
call with its body. -/
theorem request_reply_correlation_witness :
    ∃ m ∈ [(⟨"req-1", "ok"⟩ : ReplyMessage)], m.correlationId = "req-1" ∧ m.content = "ok" :=
  (request_reply_correlation "req-1" "ok" [⟨"req-1", "ok"⟩]).1 rfl

/-- Every single transition of the gateway state machine keeps the attempt
counter within the maximum. -/
theorem gatewayStep_attempts_le (s : GatewayState) (e : GatewayEvent)
    (h : s.reconnectAttempts ≤ maxReconnectAttempts) :
    ((gatewayStep s e).1).reconnectAttempts ≤ maxReconnectAttempts := by
  cases e with
  | connOk => simp [gatewayStep, connectSuccess]
  | connLost =>
    simp only [gatewayStep, connectionLost, scheduleReconnect]
    split
    · simpa using h
    · rename_i hlt
      simp only [maxReconnectAttempts] at *
      simp at hlt ⊢
      omega
  | reconnectFailed =>
    simp only [gatewayStep, scheduleReconnect]
    split
    · exact h
    · rename_i hlt
      simp only [maxReconnectAttempts] at *
      simp at hlt ⊢
      omega

/-- Runs of the gateway state machine keep the attempt counter within the
maximum. -/
theorem gatewayRun_attempts_le (es : List GatewayEvent) (s : GatewayState)
    (h : s.reconnectAttempts ≤ maxReconnectAttempts) :
    (gatewayRun s es).reconnectAttempts ≤ maxReconnectAttempts := by
  induction es generalizing s with
  | nil => simpa [gatewayRun] using h
  | cons e rest ih =>
    have : gatewayRun s (e :: rest) = gatewayRun (gatewayStep s e).1 rest := rfl
    rw [this]
    exact ih _ (gatewayStep_attempts_le s e h)

/-- C4: in the gateway's reconnection state machine, starting from the
constructor state, the attempt counter never exceeds the maximum (10) under
any sequence of connection events; each scheduled attempt's delay equals
`reconnectDelay × attemptNumber`; once the maximum is reached
`scheduleReconnect` gives up without scheduling anything or changing state;
and a successful `connect()` resets the counter to zero. -/
theorem reconnect_bounded (es : List GatewayEvent) (s s' : GatewayState) (d : Nat) :
    ((gatewayRun initialGatewayState es).reconnectAttempts ≤ maxReconnectAttempts) ∧
    (scheduleReconnect s = (s', some d) →
      s'.reconnectAttempts = s.reconnectAttempts + 1 ∧
      d = reconnectDelay * s'.reconnectAttempts) ∧
    (s.reconnectAttempts ≥ maxReconnectAttempts → scheduleReconnect s = (s, none)) ∧
    ((connectSuccess s).reconnectAttempts = 0) := by
  refine ⟨gatewayRun_attempts_le es initialGatewayState (Nat.zero_le _), ?_, ?_, rfl⟩
  · intro hsch
    simp only [scheduleReconnect] at hsch
    split at hsch
    · simp at hsch
    · obtain ⟨hs', hd⟩ := Prod.mk.injEq .. ▸ hsch
      cases hsch
      exact ⟨rfl, rfl⟩
  · intro hge
    simp [scheduleReconnect, hge]

/-- Witness for C4 at a concrete input: from three recorded attempts,
scheduling the fourth yields the delay `5000 × 4 = 20000`, and the run
`[connLost]` stays within the maximum. -/
theorem reconnect_bounded_witness :
    (GatewayState.mk false 4).reconnectAttempts
        = (GatewayState.mk false 3).reconnectAttempts + 1 ∧
    20000 = reconnectDelay * (GatewayState.mk false 4).reconnectAttempts :=
  (reconnect_bounded [GatewayEvent.connLost] ⟨false, 3⟩ ⟨false, 4⟩ 20000).2.1 rfl

/-- C5: a publish or request call made while the gateway is disconnected
fails immediately with the transport error `RabbitMQ not connected`: nothing
is handed to the broker channel and the gateway state is untouched. -/
theorem disconnected_calls_fail (s : GatewayState) (metrics query : String)
    (h : s.isConnected = false) :
    publishHealthMetrics s metrics = ⟨s, [], some "RabbitMQ not connected"⟩ ∧
    requestDatabaseHealthCheck s query = ⟨s, [], some "RabbitMQ not connected"⟩ := by
  simp [publishHealthMetrics, requestDatabaseHealthCheck, h]

/-- Witness for C5 at a concrete input: the constructor state is
disconnected, and both calls fail there without publishing. -/
theorem disconnected_calls_fail_witness :
    publishHealthMetrics initialGatewayState "metrics"
        = ⟨initialGatewayState, [], some "RabbitMQ not connected"⟩ ∧
    requestDatabaseHealthCheck initialGatewayState "SELECT 1"
        = ⟨initialGatewayState, [], some "RabbitMQ not connected"⟩ :=
  disconnected_calls_fail initialGatewayState "metrics" "SELECT 1" rfl

/-- Once a key is present in the `healthResults` map, processing further
targets (which only overwrites entries with fresh results) keeps it
present. -/
theorem healthResultsAfterSweep_isSome_of_isSome (targets : List Target)
    (probe : Target → ProbeOutcome) (m : String → Option CheckResult) (k : String)
    (h : (m k).isSome) :
    ((healthResultsAfterSweep targets probe m) k).isSome := by
  induction targets generalizing m with
  | nil => simpa [healthResultsAfterSweep] using h
  | cons hd tl ih =>
    have hstep : healthResultsAfterSweep (hd :: tl) probe m
        = healthResultsAfterSweep tl probe (mapSet m hd.name (checkSingleTarget probe hd)) := rfl
    rw [hstep]
    apply ih
    simp only [mapSet]
    split
    · simp
    · exact h

/-- Every target in the sweep ends up with an entry in `healthResults`. -/
theorem healthResultsAfterSweep_mem (targets : List Target)
    (probe : Target → ProbeOutcome) (m : String → Option CheckResult) (t : Target)
    (h : t ∈ targets) :
    ((healthResultsAfterSweep targets probe m) t.name).isSome := by
  induction targets generalizing m with
  | nil => cases h
  | cons hd tl ih =>
    have hstep : healthResultsAfterSweep (hd :: tl) probe m
        = healthResultsAfterSweep tl probe (mapSet m hd.name (checkSingleTarget probe hd)) := rfl
    rw [hstep]
    rcases List.mem_cons.mp h with h1 | h2
    · subst h1
      apply healthResultsAfterSweep_isSome_of_isSome
      simp [mapSet]
    · exact ih _ h2

/-- C2: a full sweep produces one CheckResult per configured target — the
result list has the same length as the target list, its `i`-th entry is
determined by the `i`-th target alone (so one target's failure cannot
prevent or change another target's result), a probe that throws is converted
into an `error` CheckResult carrying the failure message, and every target
of the sweep has an entry stored in the `healthResults` map afterwards. -/
theorem sweep_isolation (targets : List Target) (probe : Target → ProbeOutcome)
    (t : Target) (msg : String) (i : Nat) :
    ((runFullHealthCheck targets probe).length = targets.length) ∧
    ((runFullHealthCheck targets probe)[i]? = (targets[i]?).map (checkSingleTarget probe)) ∧
    (probe t = .thrown msg → checkSingleTarget probe t = ⟨t, "error", some msg, none⟩) ∧
    (t ∈ targets →
      ((healthResultsAfterSweep targets probe (fun _ => none)) t.name).isSome) := by
  refine ⟨List.length_map _ _, ?_, ?_, ?_⟩
  · simp [runFullHealthCheck]
  · intro h
    simp [checkSingleTarget, h]
  · intro h
    exact healthResultsAfterSweep_mem targets probe _ t h

/-- Witness for C2 at a concrete input: a two-target sweep in which the
probe for `a` throws still records an `error` result for `a` and stores a
result for the other target `b`. -/
theorem sweep_isolation_witness :
    (checkSingleTarget
        (fun u => if u.name = "a" then ProbeOutcome.thrown "boom"
          else ProbeOutcome.result ⟨u, "healthy", none, some 200⟩)
        ⟨"a", "http", some 200, true⟩
      = ⟨⟨"a", "http", some 200, true⟩, "error", some "boom", none⟩) ∧
    ((healthResultsAfterSweep
        [⟨"a", "http", some 200, true⟩, ⟨"b", "http", none, false⟩]
        (fun u => if u.name = "a" then ProbeOutcome.thrown "boom"
          else ProbeOutcome.result ⟨u, "healthy", none, some 200⟩)
        (fun _ => none)) "b").isSome := by
  refine ⟨(sweep_isolation [⟨"a", "http", some 200, true⟩, ⟨"b", "http", none, false⟩]
      (fun u => if u.name = "a" then ProbeOutcome.thrown "boom"
        else ProbeOutcome.result ⟨u, "healthy", none, some 200⟩)
      ⟨"a", "http", some 200, true⟩ "boom" 0).2.2.1 rfl, ?_⟩
  exact (sweep_isolation [⟨"a", "http", some 200, true⟩, ⟨"b", "http", none, false⟩]
      (fun u => if u.name = "a" then ProbeOutcome.thrown "boom"
        else ProbeOutcome.result ⟨u, "healthy", none, some 200⟩)
      ⟨"b", "http", none, false⟩ "boom" 0).2.2.2 (by simp)

/-- Appending alerts one at a time through the orchestrator's
`generateAlert` adds exactly one list element per call. -/
theorem generateAlerts_length (incoming alerts : List Alert) :
    (generateAlerts alerts incoming).length = alerts.length + incoming.length := by
  induction incoming generalizing alerts with
  | nil => simp [generateAlerts]
  | cons a rest ih =>
    have hstep : generateAlerts alerts (a :: rest) = generateAlerts (alerts ++ [a]) rest := rfl
    rw [hstep, ih]
    simp
    omega

/-- C3 counterexample: the claim states that after every operation that
appends alerts the retained alert list never exceeds 100 entries, for the
Orchestrator's list as well.  But the Orchestrator's `generateAlert` never
truncates: appending 101 alerts to an empty list leaves 101 retained. -/
theorem orchestrator_alerts_unbounded :
    ¬ ((generateAlerts []
        (List.replicate 101 (⟨"service-down", "critical", "svc-a", "down", none⟩ : Alert))).length
      ≤ 100) := by
  rw [generateAlerts_length]
  simp

/-- C3 (amended): the Self-Monitoring Engine's alert list is truncated to its
most recent 100 entries by the `cleanOldMetrics` step of every collection
cycle, so after that step its length never exceeds 100; the Orchestrator's
alert list has no such truncation and can exceed any bound. -/
theorem selfMonitoring_alert_bound (now : Int) (metrics : List (Int × Nat))
    (alerts : List Alert) :
    ((cleanOldMetrics now metrics alerts).2).length ≤ 100 := by
  simp only [cleanOldMetrics]
  split
  · rename_i h
    rw [List.length_drop]
    omega
  · rename_i h
    simp at h
    omega

/-- C6: the HTTP probe classifies a response `healthy` exactly when its
status code is below 400 if no `expectedStatus` is configured, and exactly
when the status code equals the configured `expectedStatus` (a status code,
hence positive) otherwise; every other outcome — a rejected status code or a
request that got no response — yields an `unhealthy` CheckResult. -/
theorem http_probe_classification (t : Target) (s : Nat) (msg : String) :
    (t.expectedStatus = none →
      ((checkHttpTarget t (.response s)).status = "healthy" ↔ s < 400)) ∧
    (∀ e : Nat, t.expectedStatus = some e → 0 < e →
      ((checkHttpTarget t (.response s)).status = "healthy" ↔ s = e)) ∧
    ((checkHttpTarget t (.response s)).status = "healthy" ∨
      (checkHttpTarget t (.response s)).status = "unhealthy") ∧
    ((checkHttpTarget t (.networkError msg)).status = "unhealthy") := by
  refine ⟨?_, ?_, ?_, rfl⟩
  · intro h
    simp only [checkHttpTarget, validateStatus, h]
    by_cases hs : s < 400 <;> simp [hs]
  · intro e he hpos
    simp only [checkHttpTarget, validateStatus, he]
    rw [if_pos (Nat.pos_iff_ne_zero.mp hpos)]
    by_cases hs : s = e <;> simp [hs]
  · simp only [checkHttpTarget]
    split <;> simp

/-- Witness for C6 at the spec's own scenario: target `svc-a` with
`expectedStatus: 200` receiving an HTTP 500 response — healthy would require
`500 = 200`. -/
theorem http_probe_classification_witness :
    (checkHttpTarget ⟨"svc-a", "http", some 200, true⟩
        (HttpOutcome.response 500)).status = "healthy" ↔ 500 = 200 :=
  (http_probe_classification ⟨"svc-a", "http", some 200, true⟩ 500 "x").2.1
    200 rfl (by decide)

/-- `countP` only depends on the pointwise values of its predicate. -/
theorem countP_ext (l : List CheckResult) (p q : CheckResult → Bool)
    (h : ∀ a ∈ l, p a = q a) : l.countP p = l.countP q := by
  induction l with
  | nil => rfl
  | cons x xs ih =>
    simp [List.countP_cons, h x (by simp), ih (fun a ha => h a (by simp [ha]))]

/-- How many alerts of a sweep's `processHealthResults` output satisfy a
predicate, split along the two generation loops. -/
theorem countP_processHealthResults (p : Alert → Bool) (results : List CheckResult) :
    (processHealthResults results).countP p
      = results.countP
          (fun r => p (mkCriticalAlert r) && (r.status != "healthy" && r.target.critical))
      + results.countP
          (fun r => p (mkWarningAlert r) && (r.status != "healthy" && !r.target.critical)) := by
  simp [processHealthResults, List.countP_append, List.countP_map, List.countP_filter,
    Function.comp]

/-- The non-healthy results split exactly into the critical and the
non-critical ones. -/
theorem countP_nonHealthy_split (results : List CheckResult) :
    results.countP (fun r => r.status != "healthy" && r.target.critical)
      + results.countP (fun r => r.status != "healthy" && !r.target.critical)
      = results.countP (fun r => r.status != "healthy") := by
  induction results with
  | nil => rfl
  | cons r rs ih =>
    simp only [List.countP_cons]
    cases h1 : r.status != "healthy" <;> cases h2 : r.target.critical <;>
      simp [h1, h2] <;> omega

/-- C7: after a sweep, `processHealthResults` emits, for every target name,
exactly one `critical`-severity `service-down` alert per non-healthy result
on a critical target with that name and exactly one `warning`-severity
`service-degraded` alert per non-healthy result on a non-critical target
with that name; healthy results generate nothing (an all-healthy sweep emits
no alert, and the total number of alerts equals the number of non-healthy
results). -/
theorem alert_classification (results : List CheckResult) (n : String) :
    ((processHealthResults results).countP
        (fun a => a.type == "service-down" && a.severity == "critical" && a.target == n)
      = results.countP
          (fun r => r.status != "healthy" && r.target.critical && r.target.name == n)) ∧
    ((processHealthResults results).countP
        (fun a => a.type == "service-degraded" && a.severity == "warning" && a.target == n)
      = results.countP
          (fun r => r.status != "healthy" && !r.target.critical && r.target.name == n)) ∧
    ((∀ r ∈ results, r.status = "healthy") → processHealthResults results = []) ∧
    ((processHealthResults results).length = results.countP (fun r => r.status != "healthy")) := by
  refine ⟨?_, ?_, ?_, ?_⟩
  · rw [countP_processHealthResults]
    have h2 : results.countP
        (fun r => ((fun a => a.type == "service-down" && a.severity == "critical" && a.target == n)
          (mkWarningAlert r)) && (r.status != "healthy" && !r.target.critical)) = 0 := by
      rw [countP_ext results _ (fun _ => false) (by intro a _; simp [mkWarningAlert])]
      simp
    rw [h2, Nat.add_zero]
    apply countP_ext
    intro a _
    cases hs : a.status != "healthy" <;> cases hc : a.target.critical <;>
      cases hn : a.target.name == n <;> simp [mkCriticalAlert, hs, hc, hn]
  · rw [countP_processHealthResults]
    have h1 : results.countP
        (fun r => ((fun a => a.type == "service-degraded" && a.severity == "warning" && a.target == n)
          (mkCriticalAlert r)) && (r.status != "healthy" && r.target.critical)) = 0 := by
      rw [countP_ext results _ (fun _ => false) (by intro a _; simp [mkCriticalAlert])]
      simp
    rw [h1, Nat.zero_add]
    apply countP_ext
    intro a _
    cases hs : a.status != "healthy" <;> cases hc : a.target.critical <;>
      cases hn : a.target.name == n <;> simp [mkWarningAlert, hs, hc, hn]
  · intro h
    have hf : ∀ (b : CheckResult → Bool),
        results.filter (fun r => r.status != "healthy" && b r) = [] := by
      intro b
      rw [List.filter_eq_nil_iff]
      intro a ha
      simp [h a ha]
    simp only [processHealthResults]
    rw [hf (fun r => r.target.critical), hf (fun r => !r.target.critical)]
    rfl
  · simp only [processHealthResults, List.length_append, List.length_map,
      ← List.countP_eq_length_filter]
    exact countP_nonHealthy_split results

/-- Witness for C7 at the spec's scenario: critical target `svc-a` unhealthy
with HTTP 500 — the sweep's alert output contains exactly one
`critical`-severity `service-down` alert referencing `svc-a`. -/
theorem alert_classification_witness :
    (processHealthResults
        [⟨⟨"svc-a", "http", some 200, true⟩, "unhealthy",
          some "Request failed with status code 500", some 500⟩]).countP
      (fun a => a.type == "service-down" && a.severity == "critical" && a.target == "svc-a")
      = 1 := by
  rw [(alert_classification
      [⟨⟨"svc-a", "http", some 200, true⟩, "unhealthy",
        some "Request failed with status code 500", some 500⟩] "svc-a").1]
  decide

/-- C8 counterexample: with the shipped thresholds (500 MB, 80 %, 100 ms),
a snapshot whose CPU usage is 90 % — above its threshold — but whose memory
(100 MB) and event-loop delay (10 ms) are below theirs is reported
`healthy`, so the claimed equivalence "unhealthy iff at least one of the
memory, CPU, or event-loop thresholds is breached" is false: the CPU
threshold is breached, yet the status is not `unhealthy`. -/
theorem selfHealth_ignores_cpu :
    ((getHealthStatus configThresholds ⟨100, 90, 10⟩ 2).status = "healthy") ∧
    ((90 : ℚ) > configThresholds.cpuUsagePercent) ∧
    ¬ (((getHealthStatus configThresholds ⟨100, 90, 10⟩ 2).status = "unhealthy") ↔
        ((100 : ℚ) > configThresholds.memoryUsageMB ∨
          (90 : ℚ) > configThresholds.cpuUsagePercent ∨
          (10 : ℚ) > configThresholds.eventLoopDelay)) := by
  refine ⟨?_, by decide, ?_⟩
  · simp [getHealthStatus, configThresholds]
    norm_num
  · intro hiff
    have : (getHealthStatus configThresholds ⟨100, 90, 10⟩ 2).status = "unhealthy" :=
      hiff.mpr (Or.inr (Or.inl (by decide)))
    rw [show (getHealthStatus configThresholds ⟨100, 90, 10⟩ 2).status = "healthy" by
      simp [getHealthStatus, configThresholds]; norm_num] at this
    simp at this

/-- C8 (amended): the self-monitoring engine's reported health status is
`unhealthy` if and only if the memory threshold or the event-loop-delay
threshold is currently breached — the CPU reading is not consulted by
`getHealthStatus` (CPU breaches only generate alerts in
`checkThresholds`) — and the status is always one of `healthy` and
`unhealthy`. -/
theorem selfHealth_status (th : Thresholds) (s : SelfSnapshot) (u : Nat) :
    (((getHealthStatus th s u).status = "unhealthy") ↔
      (s.rssMB > th.memoryUsageMB ∨ s.eventLoopDelayMs > th.eventLoopDelay)) ∧
    ((getHealthStatus th s u).status = "unhealthy" ∨
      (getHealthStatus th s u).status = "healthy") := by
  by_cases h1 : s.rssMB > th.memoryUsageMB <;>
    by_cases h2 : s.eventLoopDelayMs > th.eventLoopDelay <;>
    simp [getHealthStatus, h1, h2]

/-- C9 counterexample: the claim (with the spec's own example) states that a
45-second interval yields a schedule firing every 45 seconds.  The generated
expression is `*/45 * * * * *`, which matches seconds-of-minute divisible by
45 — it fires at t = 45 s but not at t = 90 s, so it does not fire every
45 seconds (the gap pattern is 45 s, 15 s, 45 s, 15 s, …). -/
theorem intervalToCron_45s_not_periodic :
    (cronMatches (intervalToCron 45000) 45 = true) ∧
    (cronMatches (intervalToCron 45000) 90 = false) ∧
    ¬ (∀ t, cronMatches (intervalToCron 45000) t = decide (45 ∣ t)) := by
  refine ⟨by decide, by decide, fun h => ?_⟩
  have h90 := h 90
  revert h90
  decide

/-- C9 (amended): `intervalToCron` reduces the interval to the coarsest unit
by integer division and emits a `*/n` step schedule, which fires when the
corresponding calendar field is divisible by `n`; its effective firing
period therefore equals the configured interval exactly when the reduced
count divides the next coarser unit.  For every sub-minute interval of `s`
seconds with `s` dividing 60 the schedule fires exactly at the multiples of
`s` seconds, and a 120-second interval reduces to the 2-minute schedule
`0 */2 * * * *`, firing exactly at the multiples of 120 seconds; a 45-second
interval instead yields `*/45 * * * * *`, whose firing times within each
minute are the seconds divisible by 45. -/
theorem intervalToCron_period (s t : Nat) (h1 : 0 < s) (h2 : s < 60) (h3 : s ∣ 60) :
    (cronMatches (intervalToCron (1000 * s)) t = decide (s ∣ t)) ∧
    (intervalToCron 45000 = CronExpr.secondStep 45) ∧
    (intervalToCron 120000 = CronExpr.minuteStep 2) ∧
    (cronMatches (intervalToCron 120000) t = decide (120 ∣ t)) := by
  refine ⟨?_, rfl, rfl, ?_⟩
  · have hsec : 1000 * s / 1000 = s := by omega
    simp only [intervalToCron, hsec]
    rw [if_neg (by omega), if_pos h2]
    simp only [cronMatches]
    rw [Nat.mod_mod_of_dvd t h3]
    simp [Nat.dvd_iff_mod_eq_zero, beq_eq_decide]
  · show (t % 60 == 0 && t / 60 % 60 % 2 == 0) = decide (120 ∣ t)
    have hmod : (t % 60 = 0 ∧ t / 60 % 60 % 2 = 0) ↔ t % 120 = 0 := by omega
    have hdvd : (120 ∣ t) ↔ t % 120 = 0 := Nat.dvd_iff_mod_eq_zero
    rw [show (decide (120 ∣ t)) = decide (t % 120 = 0) by simp [hdvd]]
    cases hq : decide (t % 120 = 0) with
    | true =>
      simp only [decide_eq_true_eq] at hq
      have := hmod.mpr hq
      simp [this.1, this.2]
    | false =>
      simp only [decide_eq_false_iff_not] at hq
      have hnot := fun a b => hq (hmod.mp ⟨a, b⟩)
      by_cases ha : t % 60 = 0
      · have hb : t / 60 % 60 % 2 ≠ 0 := fun hb => hq (hmod.mp ⟨ha, hb⟩)
        simp [ha, hb]
      · simp [ha]

/-- Witness for C9 at a concrete input: a 30-second interval (30 divides 60)
fires at t = 90 s, a multiple of 30. -/
theorem intervalToCron_period_witness :
    cronMatches (intervalToCron (1000 * 30)) 90 = decide (30 ∣ 90) :=
  (intervalToCron_period 30 90 (by decide) (by decide) (by decide)).1

/-- C10: `getMetricsHistory` returns the whole retained history when called
with `limit = 0` (the falsy zero disables the limit), and for every positive
limit it returns a suffix of the history — the most recent entries — of
length `min limit (history length)`. -/
theorem getMetricsHistory_spec (history : List Nat) (limit : Nat) :
    (getMetricsHistory history 0 = history) ∧
    (0 < limit →
      (getMetricsHistory history limit).length = min limit history.length ∧
      List.IsSuffix (getMetricsHistory history limit) history) := by
  constructor
  · simp [getMetricsHistory]
  · intro h
    have hne : limit ≠ 0 := by omega
    simp only [getMetricsHistory, if_pos hne]
    exact ⟨by rw [List.length_drop]; omega, List.drop_suffix _ _⟩

/-- Witness for C10 at a concrete input: with three retained snapshots and
`limit = 2` the accessor returns a suffix of length 2. -/
theorem getMetricsHistory_spec_witness :
    (getMetricsHistory [1, 2, 3] 2).length = min 2 ([1, 2, 3] : List Nat).length ∧
    List.IsSuffix (getMetricsHistory [1, 2, 3] 2) [1, 2, 3] :=
  (getMetricsHistory_spec [1, 2, 3] 2).2 (by decide)

end HealthMonitor
